import Mathlib

/-!
Verification development for the smartphone-os camera/recording core.

Shallow embedding of `src/server/backend/app/services/camera_types.py`,
`camera_manager.py` and `recording.py`. Machine floats (fps, timestamps,
backoff durations) are modelled as rationals; device I/O (OpenCV capture,
pyuvc, cv2.VideoWriter, the filesystem) is modelled by explicit
environments and event traces.
-/

namespace SmartphoneOS

/-! ## camera_types.py -/

/-- Model of FrameTransform (camera_types.py lines 5-9). `rotate_code` holds a
cv2 rotation constant; only the three constants below ever occur. -/
inductive RotateCode where
  | rotate90Clockwise
  | rotate180
  | rotate90Counterclockwise
deriving DecidableEq, Repr

structure FrameTransform where
  rotate_code : Option RotateCode := none
  flip_horizontal : Bool := false
  flip_vertical : Bool := false
deriving DecidableEq, Repr

/-- Model of CameraConfig (camera_types.py lines 12-28); fps is a Python
float, modelled as a rational. -/
structure CameraConfig where
  camera_id : String
  device_index : Nat
  display_name : String
  frame_width : Nat := 640
  frame_height : Nat := 480
  fps : ℚ := 30
  backend : Option Nat := none
  fourcc : Option String := none
  transform : FrameTransform := {}
  access_method : String := "opencv"
  vendor_id : Option Nat := none
  product_id : Option Nat := none
  serial_number : Option String := none
  device_uid : Option String := none
  device_address : Option Nat := none
deriving DecidableEq, Repr

/-! ## Frames

A numpy image array: `channels = 1` models a 2-dimensional (grayscale)
array, `channels = 3` a BGR array; `px` gives the intensity at a pixel
(one shared intensity per channel suffices for the claims below). -/

structure Frame where
  rows : Nat
  cols : Nat
  channels : Nat := 3
  px : Nat → Nat → Nat

/-- Model of cv2.rotate(frame, code) on a rows-by-cols image. -/
def cvRotate (code : RotateCode) (f : Frame) : Frame :=
  match code with
  | .rotate90Clockwise =>
      { rows := f.cols, cols := f.rows, channels := f.channels,
        px := fun r c => f.px (f.rows - 1 - c) r }
  | .rotate180 =>
      { rows := f.rows, cols := f.cols, channels := f.channels,
        px := fun r c => f.px (f.rows - 1 - r) (f.cols - 1 - c) }
  | .rotate90Counterclockwise =>
      { rows := f.cols, cols := f.rows, channels := f.channels,
        px := fun r c => f.px c (f.cols - 1 - r) }

/-- Model of cv2.flip(frame, 1) — horizontal flip. -/
def cvFlipHorizontal (f : Frame) : Frame :=
  { f with px := fun r c => f.px r (f.cols - 1 - c) }

/-- Model of cv2.flip(frame, 0) — vertical flip. -/
def cvFlipVertical (f : Frame) : Frame :=
  { f with px := fun r c => f.px (f.rows - 1 - r) c }

/-- Model of cv2.cvtColor(frame, cv2.COLOR_GRAY2BGR). -/
def cvGray2Bgr (f : Frame) : Frame :=
  { f with channels := 3 }

/-- Embeds CameraStream apply-transform (camera_manager.py lines 279-290):
rotate if configured, then flip horizontal, then flip vertical. -/
def apply_transform (frame : Frame) (transform : FrameTransform) : Frame :=
  let frame1 := match transform.rotate_code with
    | some code => cvRotate code frame
    | none => frame
  let frame2 := if transform.flip_horizontal then cvFlipHorizontal frame1 else frame1
  let frame3 := if transform.flip_vertical then cvFlipVertical frame2 else frame2
  frame3

/-! ## UVC device selection (camera_manager.py lines 112-138) -/

/-- A pyuvc device dictionary entry; every key may be absent. -/
structure UvcDevice where
  uid : Option String := none
  idVendor : Option Nat := none
  idProduct : Option Nat := none
  serialNumber : Option String := none
  device_address : Option Nat := none
  name : Option String := none
deriving DecidableEq, Repr

/-- Python truthiness of an optional string: None and the empty string
are falsy. -/
def strTruthy : Option String → Bool
  | none => false
  | some s => s != ""

/-- Embeds the inner matches predicate of device selection
(camera_manager.py lines 113-124). -/
def matchesDevice (cfg : CameraConfig) (device : UvcDevice) : Bool :=
  if strTruthy cfg.device_uid && device.uid != cfg.device_uid then false
  else if cfg.device_address.isSome && device.device_address != cfg.device_address then false
  else if cfg.vendor_id.isSome && device.idVendor != cfg.vendor_id then false
  else if cfg.product_id.isSome && device.idProduct != cfg.product_id then false
  else if cfg.serial_number.isSome && device.serialNumber != cfg.serial_number then false
  else true

/-- Membership of a possibly-absent device uid in the used-uids set: a
None uid is never a member of a set of strings. -/
def uidMem (uid : Option String) (used_uids : List String) : Bool :=
  match uid with
  | none => false
  | some s => used_uids.contains s

/-- Embeds device selection (camera_manager.py lines 112-138):
a first pass returns the first unclaimed device matching every configured
field; the fallback pass returns the first unclaimed device checking only
vendor and product. -/
def select_uvc_device (cfg : CameraConfig) (devices : List UvcDevice)
    (used_uids : List String) : Option UvcDevice :=
  match devices.find? (fun dev => matchesDevice cfg dev && !uidMem dev.uid used_uids) with
  | some dev => some dev
  | none =>
      devices.find? (fun dev =>
        !uidMem dev.uid used_uids &&
        (cfg.vendor_id.isNone || dev.idVendor == cfg.vendor_id) &&
        (cfg.product_id.isNone || dev.idProduct == cfg.product_id))

/-- The claim's reading of the relaxed pass: ignore uid and address but
still check every other configured field (vendor, product, serial).
Stated from the spec's words, to be compared with `select_uvc_device`. -/
def relaxedSpecMatches (cfg : CameraConfig) (device : UvcDevice) : Bool :=
  (cfg.vendor_id.isNone || device.idVendor == cfg.vendor_id) &&
  (cfg.product_id.isNone || device.idProduct == cfg.product_id) &&
  (cfg.serial_number.isNone || device.serialNumber == cfg.serial_number)

/-! ## CameraStream start / CameraManager (camera_manager.py lines 20-347)

Device I/O is abstracted into `CaptureEnv`; successful device opens are
recorded in an event trace so that "opens exactly one device handle" is
observable. `ASSIGNED_LIBUVC_UIDS` (line 17) is the `assigned_uids` field
of `CaptureWorld`. -/

inductive OpenEvent where
  | opencv (device_index : Nat)
  | uvcOpen (uid : String)
deriving DecidableEq, Repr

structure CaptureEnv where
  /-- whether importing pyuvc succeeds -/
  hasUvc : Bool
  /-- whether the OpenCV capture at an index opens -/
  opencvOpens : Nat → Bool
  /-- result of uvc device enumeration; none models a raised exception -/
  uvcDeviceList : Option (List UvcDevice)
  /-- whether opening the uvc capture for a uid succeeds -/
  uvcOpenOk : String → Bool

structure CaptureWorld where
  /-- the process-wide ASSIGNED_LIBUVC_UIDS set -/
  assigned_uids : List String := []
  /-- trace of successful device opens -/
  opens : List OpenEvent := []
deriving DecidableEq, Repr

/-- Runtime state of one `CameraStream` relevant to start/claiming
(camera_manager.py lines 23-32). -/
structure CameraStreamState where
  config : CameraConfig
  capture : Option Nat := none
  uvc_capture : Option String := none
  uvc_uid : Option String := none
  running : Bool := false
deriving DecidableEq, Repr

/-- Embeds the OpenCV start path (lines 42-60): open by index; on failure
release and return failure, else set the run flag and spawn the loop. -/
def start_opencv (env : CaptureEnv) (st : CameraStreamState) (w : CaptureWorld) :
    Bool × CameraStreamState × CaptureWorld :=
  if env.opencvOpens st.config.device_index then
    (true,
     { st with capture := some st.config.device_index, running := true },
     { w with opens := w.opens ++ [.opencv st.config.device_index] })
  else
    (false, { st with capture := none }, w)

/-- Embeds the libuvc start path (lines 62-110): discard a stale claim,
enumerate, select an unclaimed device, open it, back-fill uid/address
into the config and register the claim; any failure returns failure. -/
def start_libuvc (env : CaptureEnv) (st : CameraStreamState) (w : CaptureWorld) :
    Bool × CameraStreamState × CaptureWorld :=
  if !env.hasUvc then (false, st, w)
  else
    let cleared : CameraStreamState × CaptureWorld :=
      match st.uvc_uid with
      | some u =>
          if u ≠ "" then
            ({ st with uvc_uid := none }, { w with assigned_uids := w.assigned_uids.erase u })
          else ({ st with uvc_uid := none }, w)
      | none => (st, w)
    let st1 := cleared.1
    let w1 := cleared.2
    match env.uvcDeviceList with
    | none => (false, st1, w1)
    | some devices =>
        match select_uvc_device st1.config devices w1.assigned_uids with
        | none => (false, st1, w1)
        | some target =>
            match target.uid with
            | none => (false, { st1 with uvc_capture := none }, w1)
            | some uid =>
                if env.uvcOpenOk uid then
                  let cfg1 := { st1.config with
                    device_uid := some uid,
                    device_address :=
                      if st1.config.device_address.isNone then target.device_address
                      else st1.config.device_address }
                  let w2 :=
                    if uid ≠ "" then { w1 with assigned_uids := w1.assigned_uids ++ [uid] }
                    else w1
                  (true,
                   { st1 with
                     config := cfg1, uvc_capture := some uid,
                     uvc_uid := some uid, running := true },
                   { w2 with opens := w2.opens ++ [.uvcOpen uid] })
                else
                  (false, { st1 with uvc_capture := none }, w1)

/-- Embeds CameraStream.start (lines 34-40): no-op success when already
running, otherwise dispatch on the access method. -/
def CameraStream.start (env : CaptureEnv) (st : CameraStreamState) (w : CaptureWorld) :
    Bool × CameraStreamState × CaptureWorld :=
  if st.running then (true, st, w)
  else if st.config.access_method = "libuvc" then start_libuvc env st w
  else start_opencv env st w

/-- The CameraManager identity map (line 297): an association list from
camera id to stream state, fixed at construction. -/
abbrev CameraManagerState := List (String × CameraStreamState)

def lookupStream : CameraManagerState → String → Option CameraStreamState
  | [], _ => none
  | (k, v) :: rest, camera_id =>
      if k = camera_id then some v else lookupStream rest camera_id

def updateStream : CameraManagerState → String → CameraStreamState → CameraManagerState
  | [], _, _ => []
  | (k, v) :: rest, camera_id, st =>
      (if k = camera_id then (k, st) else (k, v)) :: updateStream rest camera_id st

/-- Embeds CameraManager.ensure_started (lines 327-334): false for an
unknown
id, otherwise delegate to the stream start. -/
def ensure_started (env : CaptureEnv) (mgr : CameraManagerState)
    (w : CaptureWorld) (camera_id : String) :
    Bool × CameraManagerState × CaptureWorld :=
  match lookupStream mgr camera_id with
  | none => (false, mgr, w)
  | some stream =>
      let r := CameraStream.start env stream w
      (r.1, updateStream mgr camera_id r.2.1, r.2.2)

/-! ## Latest-frame slot (camera_manager.py lines 29-32, 188-196, 223-226)

Numpy arrays are heap references: the heap is an append-only arena, the
slot stores an index into it, `.copy()` allocates a fresh cell, and
mutating an array overwrites its cell in place. -/

structure FrameSlotState where
  heap : List Frame
  latest_frame : Option Nat := none
  latest_timestamp : ℚ := 0

/-- Fresh stream slot state (lines 29-32): no frame ever published, zero
timestamp; the heap may already hold unrelated arrays. -/
def initSlot (heap : List Frame) : FrameSlotState :=
  { heap := heap, latest_frame := none, latest_timestamp := 0 }

/-- Array read through a reference. -/
def readRef (s : FrameSlotState) (i : Nat) : Option Frame :=
  s.heap.get? i

/-- In-place mutation of the array behind reference `i`. -/
def writeRef (s : FrameSlotState) (i : Nat) (f : Frame) : FrameSlotState :=
  { s with heap := s.heap.set i f }

/-- The contents the slot currently points at. -/
def slotContents (s : FrameSlotState) : Option Frame :=
  s.latest_frame.bind fun i => s.heap.get? i

/-- Publication under the frame lock (lines 223-226): the loop thread
allocates a new array and swaps the slot reference onto it. -/
def publish_frame (s : FrameSlotState) (f : Frame) (now : ℚ) : FrameSlotState :=
  { heap := s.heap ++ [f], latest_frame := some s.heap.length, latest_timestamp := now }

/-- Embeds CameraStream.get_frame (lines 188-196): none when nothing was
published, else return a copy of the latest frame — a freshly allocated
array with the same contents. -/
def get_frame (s : FrameSlotState) : Option Nat × FrameSlotState :=
  match s.latest_frame with
  | none => (none, s)
  | some i =>
      match s.heap.get? i with
      | none => (none, s)
      | some f => (some s.heap.length, { s with heap := s.heap ++ [f] })

/-- Embeds CameraStream.get_timestamp (lines 194-196). -/
def get_timestamp (s : FrameSlotState) : ℚ :=
  s.latest_timestamp

/-- Operations a reader can perform on the slot without publishing. -/
inductive SlotOp where
  | readLatest
  | mutate (i : Nat) (f : Frame)
  | publish (f : Frame) (now : ℚ)

def runSlotOp (s : FrameSlotState) : SlotOp → FrameSlotState
  | .readLatest => (get_frame s).2
  | .mutate i f => writeRef s i f
  | .publish f now => publish_frame s f now

def runSlotOps (s : FrameSlotState) (ops : List SlotOp) : FrameSlotState :=
  ops.foldl runSlotOp s

def SlotOp.isPublish : SlotOp → Bool
  | .publish _ _ => true
  | _ => false

/-! ## Acquisition loops (camera_manager.py lines 210-277)

Each loop iteration is driven by one device-read outcome; sleeps are
recorded so the backoff behaviour is observable. Durations are seconds
as rationals (`1/20` = 50 ms). -/

structure LoopState where
  backoff : ℚ := 1/20
  sleeps : List ℚ := []
  published : List Frame := []

/-- One iteration of the OpenCV capture loop (lines 214-226): a failed
read sleeps the current backoff and doubles it capped at 1 s; a
successful read applies the transform, publishes, and resets the backoff
to 50 ms. -/
def opencvLoopStep (tr : FrameTransform) (st : LoopState) (read : Option Frame) :
    LoopState :=
  match read with
  | none =>
      { st with sleeps := st.sleeps ++ [st.backoff],
                backoff := min (st.backoff * 2) 1 }
  | some frame =>
      { st with published := st.published ++ [apply_transform frame tr],
                backoff := 1/20 }

def capture_loop_opencv (tr : FrameTransform) (reads : List (Option Frame)) :
    LoopState :=
  reads.foldl (opencvLoopStep tr) {}

/-- One device-read outcome inside the libuvc capture loop: readError
models a raised exception, noFrame a None frame. -/
inductive UvcRead where
  | readError
  | noFrame
  | ok (f : Frame)

/-- One iteration of the libuvc capture loop (lines 242-277): both a
raised read exception and a `None` frame sleep a fixed 50 ms; a good
frame is normalized from grayscale, transformed, and published. There is
no backoff variable in this loop. -/
def uvcLoopStep (tr : FrameTransform) (st : LoopState) (read : UvcRead) :
    LoopState :=
  match read with
  | .readError => { st with sleeps := st.sleeps ++ [1/20] }
  | .noFrame => { st with sleeps := st.sleeps ++ [1/20] }
  | .ok f =>
      let f1 := if f.channels = 1 then cvGray2Bgr f else f
      { st with published := st.published ++ [apply_transform f1 tr] }

def capture_loop_libuvc (tr : FrameTransform) (reads : List UvcRead) : LoopState :=
  reads.foldl (uvcLoopStep tr) {}

/-- The claim's reading of a failure-only run: the k-th consecutive
failed read sleeps min (0.05 * 2^k) 1. Stated from the spec's words,
to be compared with the loops above. -/
def expectedBackoffSleeps (n : Nat) : List ℚ :=
  (List.range n).map fun k => min ((1/20) * 2 ^ k) 1

/-- Number of trailing failed reads (used to characterize the opencv
backoff value). -/
def trailingFailures (reads : List (Option Frame)) : Nat :=
  (reads.reverse.takeWhile fun r => r.isNone).length

/-! ## Device discovery (camera_manager.py lines 362-503) -/

def transform_infrared : FrameTransform := { rotate_code := some .rotate90Clockwise }

def transform_world : FrameTransform := { flip_horizontal := true, flip_vertical := true }

/-- Lowercased characters of a string (Python str.lower on ASCII names). -/
def lowerChars (s : String) : List Char :=
  s.toList.map Char.toLower

/-- Substring test: does the haystack contain the pattern? -/
def containsChars (pat : List Char) : List Char → Bool
  | [] => pat.isEmpty
  | c :: rest => pat.isPrefixOf (c :: rest) || containsChars pat rest

/-- Embeds by-name device filtering (lines 390-392): keep devices whose
lowercased name contains the lowercased keyword. -/
def by_name (devices : List UvcDevice) (keyword : String) : List UvcDevice :=
  devices.filter fun dev =>
    containsChars (lowerChars keyword) (lowerChars (dev.name.getD ""))

/-- Stable insertion of a device into a list sorted by device address. -/
def insertByAddress (d : UvcDevice) : List UvcDevice → List UvcDevice
  | [] => [d]
  | x :: xs =>
      if d.device_address.getD 0 ≤ x.device_address.getD 0 then d :: x :: xs
      else x :: insertByAddress d xs

/-- Stable sort by device address, modelling Python's stable
sorted(..., key=lambda d: d.get("device_address", 0)). -/
def sortByAddress : List UvcDevice → List UvcDevice
  | [] => []
  | x :: xs => insertByAddress x (sortByAddress xs)

/-- Embeds the fixed fallback profile (lines 468-503). -/
def fallback_opencv_configs : List CameraConfig :=
  [ { camera_id := "eye0", device_index := 0, display_name := "左眼红外",
      frame_width := 400, frame_height := 400, fourcc := some "MJPG",
      transform := transform_infrared, access_method := "opencv" },
    { camera_id := "eye1", device_index := 1, display_name := "右眼红外",
      frame_width := 400, frame_height := 400, fourcc := some "MJPG",
      transform := transform_infrared, access_method := "opencv" },
    { camera_id := "world", device_index := 2, display_name := "外部彩色",
      frame_width := 640, frame_height := 480, fourcc := some "MJPG",
      transform := transform_world, access_method := "opencv" } ]

/-- Config produced for one pupil device (lines 411-429). -/
def pupilConfig (idx : Nat) (dev : UvcDevice) : CameraConfig :=
  { camera_id := "eye" ++ toString idx, device_index := idx,
    display_name := if idx = 0 then "左眼红外" else "右眼红外",
    frame_width := 400, frame_height := 400, fps := 60, fourcc := some "MJPG",
    transform := transform_infrared, access_method := "libuvc",
    vendor_id := dev.idVendor, product_id := dev.idProduct,
    device_uid := dev.uid, device_address := dev.device_address }

/-- Config produced for the matched world device (lines 431-448). -/
def worldUvcConfig (dev : UvcDevice) : CameraConfig :=
  { camera_id := "world", device_index := 2,
    display_name := if (dev.name.getD "") ≠ "" then dev.name.getD "" else "外部彩色",
    frame_width := 640, frame_height := 480, fps := 30, fourcc := some "MJPG",
    transform := transform_world, access_method := "libuvc",
    vendor_id := dev.idVendor, product_id := dev.idProduct,
    device_uid := dev.uid, device_address := dev.device_address }

/-- World config when no world device matched (lines 450-463). -/
def worldFallbackConfig : CameraConfig :=
  { camera_id := "world", device_index := 2, display_name := "外部彩色",
    frame_width := 640, frame_height := 480, fps := 30, fourcc := some "MJPG",
    transform := transform_world, access_method := "opencv" }

/-- Embeds camera-config discovery (lines 370-465): wholesale fallback
when
pyuvc is missing, enumeration fails, no device exists, or fewer than two
pupil cameras are found; otherwise two libuvc eye configs sorted by
address plus a world config (libuvc when a candidate exists, otherwise
the generic index-2 config). -/
def discover_camera_configs (env : CaptureEnv) : List CameraConfig :=
  if !env.hasUvc then fallback_opencv_configs
  else
    match env.uvcDeviceList with
    | none => fallback_opencv_configs
    | some devices =>
        if devices.isEmpty then fallback_opencv_configs
        else
          let pupils := by_name devices "pupil cam2"
          let world_candidates :=
            if !(by_name devices "xgimi").isEmpty then by_name devices "xgimi"
            else by_name devices "camera"
          if pupils.length < 2 then fallback_opencv_configs
          else
            let pupils_sorted := sortByAddress pupils
            let world_device := (sortByAddress world_candidates).head?
            let eyes := (pupils_sorted.take 2).enum.map fun p => pupilConfig p.1 p.2
            match world_device with
            | some dev => eyes ++ [worldUvcConfig dev]
            | none => eyes ++ [worldFallbackConfig]

/-! ## recording.py -/

/-- Filesystem model: directories and files created so far. -/
structure RecFS where
  dirs : List String := []
  files : List String := []
deriving DecidableEq, Repr

/-- Embeds create_record_directory (recording.py lines 17-21): mkdir a
timestamp-named directory under the base and return it. -/
def create_record_directory (base_dir : String) (timestamp : String) (fs : RecFS) :
    String × RecFS :=
  let target := base_dir ++ "/" ++ timestamp
  (target, { fs with dirs := if fs.dirs.contains target then fs.dirs else fs.dirs ++ [target] })

/-- Environment for a recording attempt: the latest frame each camera
currently exposes (`CameraManager.get_frame`) and whether the
`cv2.VideoWriter` for a given path opens. A successfully opened writer
creates its file on disk. -/
structure RecordingEnv where
  frames : String → Option Frame
  writerOpens : String → Bool

/-- State of a RecordingSession (recording.py lines 30-47): targets maps
camera id to its opened writer's path. -/
structure RecordingSessionState where
  record_dir : String
  camera_ids : List String
  fps : ℚ := 30
  targets : List (String × String) := []
  running : Bool := false
deriving DecidableEq, Repr

/-- The loop body of target preparation (lines 84-100), one camera at a
time: a missing frame or a writer that fails to open aborts with the
targets accumulated so far. -/
def prepare_targets_go (env : RecordingEnv) (record_dir : String) :
    List String → List (String × String) → RecFS →
    Bool × List (String × String) × RecFS
  | [], targets, fs => (true, targets, fs)
  | camera_id :: rest, targets, fs =>
      match env.frames camera_id with
      | none => (false, targets, fs)
      | some _ =>
          let video_path := record_dir ++ "/" ++ camera_id ++ ".mp4"
          if env.writerOpens video_path then
            prepare_targets_go env record_dir rest (targets ++ [(camera_id, video_path)])
              { fs with files := fs.files ++ [video_path] }
          else
            (false, targets, fs)

def prepare_targets (env : RecordingEnv) (sess : RecordingSessionState) (fs : RecFS) :
    Bool × RecordingSessionState × RecFS :=
  let r := prepare_targets_go env sess.record_dir sess.camera_ids sess.targets fs
  (r.1, { sess with targets := r.2.1 }, r.2.2)

/-- Embeds target release (lines 124-127): release every
writer and clear the map (files already created remain on disk). -/
def release_targets (sess : RecordingSessionState) : RecordingSessionState :=
  { sess with targets := [] }

/-- Embeds RecordingSession.start (lines 49-62): failure when already
active;
on a preparation failure release all targets and fail; otherwise set the
run flag. -/
def RecordingSession.start (env : RecordingEnv) (sess : RecordingSessionState)
    (fs : RecFS) : Bool × RecordingSessionState × RecFS :=
  if sess.running then (false, sess, fs)
  else
    let r := prepare_targets env sess fs
    if !r.1 then (false, release_targets r.2.1, r.2.2)
    else (true, { r.2.1 with running := true }, r.2.2)

/-- Embeds RecordingSession.stop (lines 64-74). -/
def RecordingSession.stop (sess : RecordingSessionState) : RecordingSessionState :=
  if !sess.running then sess
  else release_targets { sess with running := false }

/-- State of the RecordingManager (lines 130-135). -/
structure RecordingManagerState where
  base_dir : String
  current_session : Option RecordingSessionState := none
deriving DecidableEq, Repr

/-- Embeds the RecordingManager active property (lines 137-139). -/
def RecordingManagerState.active (mgr : RecordingManagerState) : Bool :=
  match mgr.current_session with
  | none => false
  | some sess => sess.running

/-- Embeds RecordingManager.start (lines 147-165): soft no-op returning
the
existing directory when active; otherwise create the record directory,
build a session, and commit it only when the session starts. -/
def RecordingManager.start (env : RecordingEnv) (mgr : RecordingManagerState)
    (camera_ids : List String) (timestamp : String) (fs : RecFS) :
    Option String × RecordingManagerState × RecFS :=
  if mgr.active then
    (mgr.current_session.map (·.record_dir), mgr, fs)
  else
    let made := create_record_directory mgr.base_dir timestamp fs
    let session : RecordingSessionState :=
      { record_dir := made.1, camera_ids := camera_ids }
    let r := RecordingSession.start env session made.2
    if !r.1 then (none, mgr, r.2.2)
    else (some r.2.1.record_dir, { mgr with current_session := some r.2.1 }, r.2.2)

/-- Embeds RecordingManager.stop (lines 167-175): none when inactive,
otherwise stop and drop the session and return its directory. -/
def RecordingManager.stop (mgr : RecordingManagerState) :
    Option String × RecordingManagerState :=
  match mgr.current_session with
  | none => (none, mgr)
  | some sess =>
      if !sess.running then (none, mgr)
      else (some sess.record_dir,
            { mgr with current_session := none })

/-! ## Record-loop tick scheduler (recording.py lines 102-122)

The simulated clock is exact: when the loop arrives early it sleeps to
the deadline; each iteration's frame-writing work takes a nonnegative
duration `d`. A state is `(next_tick, clock)`. -/

def tickStep (interval : ℚ) (st : ℚ × ℚ) (d : ℚ) : ℚ × ℚ :=
  let afterSleep := max st.2 st.1
  let t := afterSleep + d
  (max (st.1 + interval) t, t)

def tickTraceGo (interval : ℚ) (st : ℚ × ℚ) : List ℚ → List (ℚ × ℚ)
  | [] => []
  | d :: rest =>
      let st1 := tickStep interval st d
      st1 :: tickTraceGo interval st1 rest

/-- The trace of scheduler states over a run: the initial state
(next tick initialized to the clock at loop entry, line 104) followed by
the state after each iteration. -/
def tickTrace (interval : ℚ) (start : ℚ) (work : List ℚ) : List (ℚ × ℚ) :=
  (start, start) :: tickTraceGo interval (start, start) work

/-! ## Concrete scenarios used by witnesses and counterexamples -/

/-- Device A of the spec's selection scenario: uid "A", vendor 1, address 0. -/
def exDevA : UvcDevice := { uid := some "A", idVendor := some 1, device_address := some 0 }

/-- Device B of the spec's selection scenario: uid "B", vendor 1, address 1. -/
def exDevB : UvcDevice := { uid := some "B", idVendor := some 1, device_address := some 1 }

/-- A config requiring vendor 1 with no pinned uid. -/
def exCfgVendor1 : CameraConfig :=
  { camera_id := "eye0", device_index := 0, display_name := "eye", vendor_id := some 1 }

/-- A config requiring vendor 1 and serial "S". -/
def exCfgSerial : CameraConfig :=
  { camera_id := "eye0", device_index := 0, display_name := "eye",
    vendor_id := some 1, serial_number := some "S" }

/-- An unclaimed vendor-1 device whose serial "T" mismatches `exCfgSerial`. -/
def exDevWrongSerial : UvcDevice :=
  { uid := some "A", idVendor := some 1, serialNumber := some "T" }

/-- Two pupil devices and no world candidate. -/
def exDevPupil0 : UvcDevice :=
  { uid := some "u0", name := some "Pupil Cam2 ID0", device_address := some 3 }

def exDevPupil1 : UvcDevice :=
  { uid := some "u1", name := some "Pupil Cam2 ID1", device_address := some 2 }

/-- Enumeration finds the two pupil cameras but no world camera. -/
def exEnvTwoPupils : CaptureEnv :=
  { hasUvc := true, opencvOpens := fun _ => true,
    uvcDeviceList := some [exDevPupil0, exDevPupil1], uvcOpenOk := fun _ => true }

/-- An OpenCV camera config and a one-camera manager for it. -/
def exCfgOpencv : CameraConfig :=
  { camera_id := "world", device_index := 2, display_name := "world" }

def exMgrOpencv : CameraManagerState := [("world", { config := exCfgOpencv })]

/-- Environment in which every OpenCV index opens. -/
def exEnvOpencv : CaptureEnv :=
  { hasUvc := false, opencvOpens := fun _ => true,
    uvcDeviceList := none, uvcOpenOk := fun _ => false }

/-- A constant 400-by-400 frame. -/
def exFrame : Frame := { rows := 400, cols := 400, px := fun _ _ => 0 }

/-- A 400-by-400 frame with a synthetic marker pixel at row 10, column 20. -/
def exMarkerFrame : Frame :=
  { rows := 400, cols := 400, px := fun r c => if r = 10 ∧ c = 20 then 255 else 0 }

/-- Recording environment in which no camera has ever published a frame. -/
def exRecEnvNoFrames : RecordingEnv :=
  { frames := fun _ => none, writerOpens := fun _ => true }

/-- Recording environment in which only "cam1" has published a frame and
every writer opens. -/
def exRecEnvPartial : RecordingEnv :=
  { frames := fun cid => if cid = "cam1" then some exFrame else none,
    writerOpens := fun _ => true }

/-- A fresh recording manager over the recordings root "/rec". -/
def exRecMgr : RecordingManagerState := { base_dir := "/rec" }

/-- A recording manager holding a running session in "/rec/OLD". -/
def exActiveRecMgr : RecordingManagerState :=
  { base_dir := "/rec",
    current_session := some
      { record_dir := "/rec/OLD", camera_ids := ["cam1"], running := true } }

/-! ## Helper lemmas -/

theorem lookup_updateStream_self (mgr : CameraManagerState) (cid : String)
    (st : CameraStreamState) :
    lookupStream (updateStream mgr cid st) cid =
      (lookupStream mgr cid).map (fun _ => st) := by
  induction mgr with
  | nil => rfl
  | cons p rest ih =>
      obtain ⟨k, v⟩ := p
      by_cases h : k = cid
      · subst h
        have hu : updateStream ((k, v) :: rest) k st = (k, st) :: updateStream rest k st := by
          simp [updateStream]
        rw [hu]
        simp [lookupStream]
      · have hu : updateStream ((k, v) :: rest) cid st = (k, v) :: updateStream rest cid st := by
          simp [updateStream, h]
        rw [hu]
        simp [lookupStream, h, ih]

theorem updateStream_idem (mgr : CameraManagerState) (cid : String)
    (st : CameraStreamState) :
    updateStream (updateStream mgr cid st) cid st = updateStream mgr cid st := by
  induction mgr with
  | nil => rfl
  | cons p rest ih =>
      obtain ⟨k, v⟩ := p
      by_cases h : k = cid
      · subst h
        have hu : updateStream ((k, v) :: rest) k st = (k, st) :: updateStream rest k st := by
          simp [updateStream]
        rw [hu]
        simp [updateStream, ih]
      · have hu : updateStream ((k, v) :: rest) cid st = (k, v) :: updateStream rest cid st := by
          simp [updateStream, h]
        rw [hu]
        simp [updateStream, h, ih]

theorem start_opencv_cases (env : CaptureEnv) (st : CameraStreamState)
    (w : CaptureWorld) :
    (start_opencv env st w).1 = false ∨
    ((start_opencv env st w).2.1.running = true ∧
     (start_opencv env st w).2.2.opens = w.opens ++ [OpenEvent.opencv st.config.device_index]) := by
  unfold start_opencv
  split
  · exact Or.inr ⟨rfl, rfl⟩
  · exact Or.inl rfl

theorem start_libuvc_cases (env : CaptureEnv) (st : CameraStreamState)
    (w : CaptureWorld) :
    (start_libuvc env st w).1 = false ∨
    ((start_libuvc env st w).2.1.running = true ∧
     ∃ u, (start_libuvc env st w).2.2.opens = w.opens ++ [OpenEvent.uvcOpen u]) := by
  simp only [start_libuvc]
  repeat' split
  all_goals first
    | exact Or.inl rfl
    | exact Or.inr ⟨rfl, _, rfl⟩

/-- Success of a cold start: the stream ends up running and exactly one
device-open event is appended to the world trace. -/
theorem start_success_spec (env : CaptureEnv) (st : CameraStreamState)
    (w : CaptureWorld) (hrun : st.running = false)
    (h : (CameraStream.start env st w).1 = true) :
    (CameraStream.start env st w).2.1.running = true ∧
    (CameraStream.start env st w).2.2.opens.length = w.opens.length + 1 := by
  unfold CameraStream.start at h ⊢
  rw [hrun] at h ⊢
  simp only [Bool.false_eq_true, if_false] at h ⊢
  by_cases hm : st.config.access_method = "libuvc"
  · simp only [hm, if_true, if_pos] at h ⊢
    rcases start_libuvc_cases env st w with hf | ⟨h1, u, h2⟩
    · rw [hf] at h; exact absurd h (by simp)
    · exact ⟨h1, by simp [h2]⟩
  · simp only [hm, if_false, if_neg] at h ⊢
    rcases start_opencv_cases env st w with hf | ⟨h1, h2⟩
    · rw [hf] at h; exact absurd h (by simp)
    · exact ⟨h1, by simp [h2]⟩

/-- A running stream's start is a pure no-op. -/
theorem start_noop_of_running (env : CaptureEnv) (st : CameraStreamState)
    (w : CaptureWorld) (hrun : st.running = true) :
    CameraStream.start env st w = (true, st, w) := by
  unfold CameraStream.start
  rw [hrun]
  simp

/-- Unfolding equation of `ensure_started` at a known id. -/
theorem ensure_started_eq (env : CaptureEnv) (mgr : CameraManagerState)
    (w : CaptureWorld) (cid : String) (st : CameraStreamState)
    (hst : lookupStream mgr cid = some st) :
    ensure_started env mgr w cid =
      ((CameraStream.start env st w).1,
       updateStream mgr cid (CameraStream.start env st w).2.1,
       (CameraStream.start env st w).2.2) := by
  unfold ensure_started
  rw [hst]

/-! ## Claims -/

/-- C1: for a camera id known to the manager, two `ensure_started` calls
without an intervening stop return success both times (given the first
succeeds), leave the stream running, append exactly one device-open event
(the second call changes nothing); for an unknown id the call returns
false and changes nothing. -/
theorem C1_ensure_started_idempotent :
    (∀ env mgr w camera_id, lookupStream mgr camera_id = none →
       ensure_started env mgr w camera_id = (false, mgr, w)) ∧
    (∀ env (mgr : CameraManagerState) w camera_id st,
       lookupStream mgr camera_id = some st → st.running = false →
       (ensure_started env mgr w camera_id).1 = true →
       (ensure_started env
          (ensure_started env mgr w camera_id).2.1
          (ensure_started env mgr w camera_id).2.2 camera_id).1 = true ∧
       ((lookupStream (ensure_started env
          (ensure_started env mgr w camera_id).2.1
          (ensure_started env mgr w camera_id).2.2 camera_id).2.1 camera_id).map
            (fun s => s.running)) = some true ∧
       (ensure_started env mgr w camera_id).2.2.opens.length = w.opens.length + 1 ∧
       (ensure_started env
          (ensure_started env mgr w camera_id).2.1
          (ensure_started env mgr w camera_id).2.2 camera_id).2.2 =
         (ensure_started env mgr w camera_id).2.2 ∧
       (ensure_started env
          (ensure_started env mgr w camera_id).2.1
          (ensure_started env mgr w camera_id).2.2 camera_id).2.1 =
         (ensure_started env mgr w camera_id).2.1) := by
  constructor
  · intro env mgr w camera_id hnone
    unfold ensure_started
    rw [hnone]
  · intro env mgr w camera_id st hst hrun h1
    have hfirst := ensure_started_eq env mgr w camera_id st hst
    have h1' : (CameraStream.start env st w).1 = true := by
      rw [hfirst] at h1; exact h1
    obtain ⟨hrun1, hopens1⟩ := start_success_spec env st w hrun h1'
    have hlook2 : lookupStream (ensure_started env mgr w camera_id).2.1 camera_id =
        some (CameraStream.start env st w).2.1 := by
      rw [hfirst]
      simp only
      rw [lookup_updateStream_self, hst]
      rfl
    have hsecond := ensure_started_eq env
        (ensure_started env mgr w camera_id).2.1
        (ensure_started env mgr w camera_id).2.2 camera_id _ hlook2
    rw [start_noop_of_running _ _ _ hrun1] at hsecond
    refine ⟨by rw [hsecond], ?_, by rw [hfirst]; exact hopens1, by rw [hsecond], ?_⟩
    · rw [hsecond]
      simp only
      rw [lookup_updateStream_self, hlook2]
      simp [hrun1]
    · rw [hsecond]
      simp only
      rw [hfirst]
      simp only
      exact updateStream_idem mgr camera_id (CameraStream.start env st w).2.1

/-- Witness for C1: a concrete one-camera manager in an environment where
the OpenCV open succeeds; the second call returns true with exactly one
open event, and the unknown id "nope" returns false. -/
theorem C1_ensure_started_idempotent_witness :
    ensure_started exEnvOpencv exMgrOpencv {} "nope" = (false, exMgrOpencv, {}) ∧
    ((ensure_started exEnvOpencv
        (ensure_started exEnvOpencv exMgrOpencv {} "world").2.1
        (ensure_started exEnvOpencv exMgrOpencv {} "world").2.2 "world").1 = true ∧
     ((lookupStream (ensure_started exEnvOpencv
        (ensure_started exEnvOpencv exMgrOpencv {} "world").2.1
        (ensure_started exEnvOpencv exMgrOpencv {} "world").2.2 "world").2.1 "world").map
          (fun s => s.running)) = some true ∧
     (ensure_started exEnvOpencv exMgrOpencv {} "world").2.2.opens.length =
       (({} : CaptureWorld)).opens.length + 1 ∧
     (ensure_started exEnvOpencv
        (ensure_started exEnvOpencv exMgrOpencv {} "world").2.1
        (ensure_started exEnvOpencv exMgrOpencv {} "world").2.2 "world").2.2 =
       (ensure_started exEnvOpencv exMgrOpencv {} "world").2.2 ∧
     (ensure_started exEnvOpencv
        (ensure_started exEnvOpencv exMgrOpencv {} "world").2.1
        (ensure_started exEnvOpencv exMgrOpencv {} "world").2.2 "world").2.1 =
       (ensure_started exEnvOpencv exMgrOpencv {} "world").2.1) :=
  ⟨C1_ensure_started_idempotent.1 exEnvOpencv exMgrOpencv {} "nope" rfl,
   C1_ensure_started_idempotent.2 exEnvOpencv exMgrOpencv {} "world"
     { config := exCfgOpencv } rfl rfl rfl⟩

/-- C2 counterexample: the claim's relaxed pass is said to ignore only
uid and address, so with serial "S" configured and the only device
carrying serial "T" no device should be selectable; the code's fallback
pass ignores the serial as well and returns that device, which is neither
an exact nor a claim-relaxed match. -/
theorem C2_serial_counterexample :
    select_uvc_device exCfgSerial [exDevWrongSerial] [] = some exDevWrongSerial ∧
    matchesDevice exCfgSerial exDevWrongSerial = false ∧
    relaxedSpecMatches exCfgSerial exDevWrongSerial = false := by decide

/-- C2 (amended): selection never returns a device whose uid is in the
claim registry; an exact match on all configured fields is preferred; the
fallback pass ignores uid, address, and also serial, checking only vendor
and product; and in the spec's scenario with "A" claimed, "B" is chosen. -/
theorem C2_device_selection :
    (∀ cfg devices used d, select_uvc_device cfg devices used = some d →
       uidMem d.uid used = false) ∧
    (∀ cfg devices used,
       (devices.find? (fun dev => matchesDevice cfg dev && !uidMem dev.uid used)).isSome →
       select_uvc_device cfg devices used =
         devices.find? (fun dev => matchesDevice cfg dev && !uidMem dev.uid used)) ∧
    (∀ cfg devices used d,
       devices.find? (fun dev => matchesDevice cfg dev && !uidMem dev.uid used) = none →
       select_uvc_device cfg devices used = some d →
       ((cfg.vendor_id.isNone || d.idVendor == cfg.vendor_id) &&
        (cfg.product_id.isNone || d.idProduct == cfg.product_id)) = true) ∧
    select_uvc_device exCfgVendor1 [exDevA, exDevB] ["A"] = some exDevB := by
  refine ⟨?_, ?_, ?_, by decide⟩
  · intro cfg devices used d h
    unfold select_uvc_device at h
    rcases hf : devices.find? (fun dev => matchesDevice cfg dev && !uidMem dev.uid used)
      with _ | dev
    · rw [hf] at h
      have hp := List.find?_some h
      simp only [Bool.and_eq_true, Bool.not_eq_true'] at hp
      exact hp.1.1
    · rw [hf] at h
      have hd : dev = d := by injection h
      subst hd
      have hp := List.find?_some hf
      simp only [Bool.and_eq_true, Bool.not_eq_true'] at hp
      exact hp.2
  · intro cfg devices used h
    obtain ⟨dev, hdev⟩ := Option.isSome_iff_exists.mp h
    unfold select_uvc_device
    rw [hdev]
  · intro cfg devices used d h1 h2
    unfold select_uvc_device at h2
    rw [h1] at h2
    have hp := List.find?_some h2
    simp only [Bool.and_eq_true] at hp
    simp only [Bool.and_eq_true]
    exact ⟨hp.1.2, hp.2⟩

/-- Witness for C2: in the spec's scenario the chosen device "B" is
unclaimed, and selection indeed returns it. -/
theorem C2_device_selection_witness :
    uidMem exDevB.uid ["A"] = false ∧
    select_uvc_device exCfgVendor1 [exDevA, exDevB] ["A"] = some exDevB :=
  ⟨C2_device_selection.1 exCfgVendor1 [exDevA, exDevB] ["A"] exDevB (by decide),
   C2_device_selection.2.2.2⟩

/-- C7: the transform is applied in the fixed order rotate, then flip
horizontal, then flip vertical, each step only if configured; and a
90-degree-clockwise rotation of a 400-by-400 frame moves the pixel at
(r, c) to (c, 399 - r). -/
theorem C7_transform_order :
    (∀ (frame : Frame) (t : FrameTransform),
       apply_transform frame t =
         (if t.flip_vertical then cvFlipVertical else id)
           ((if t.flip_horizontal then cvFlipHorizontal else id)
             ((match t.rotate_code with
               | some code => cvRotate code
               | none => id) frame))) ∧
    (∀ (f : Frame) (r c : Nat), f.rows = 400 → f.cols = 400 → r < 400 → c < 400 →
       (apply_transform f transform_infrared).rows = 400 ∧
       (apply_transform f transform_infrared).cols = 400 ∧
       (apply_transform f transform_infrared).px c (399 - r) = f.px r c) := by
  constructor
  · intro frame t
    obtain ⟨rc, fh, fv⟩ := t
    cases rc <;> cases fh <;> cases fv <;> rfl
  · intro f r c hr hc hrlt hclt
    refine ⟨by simp [apply_transform, transform_infrared, cvRotate, hc],
            by simp [apply_transform, transform_infrared, cvRotate, hr], ?_⟩
    simp only [apply_transform, transform_infrared, cvRotate]
    simp only [Bool.false_eq_true, if_false]
    rw [hr]
    rw [show 400 - 1 - (399 - r) = r from by omega]

/-- Witness for C7: the synthetic marker at row 10, column 20 of a
400-by-400 frame lands at row 20, column 389 after the 90-degree
clockwise rotation. -/
theorem C7_transform_order_witness :
    (apply_transform exMarkerFrame transform_infrared).px 20 389 = 255 := by
  have h := (C7_transform_order.2 exMarkerFrame 10 20 rfl rfl (by norm_num)
    (by norm_num)).2.2
  norm_num at h
  exact h.trans rfl

/-- Reader-side slot operations never change the slot reference or the
timestamp when nothing is published. -/
theorem runSlotOps_no_publish (ops : List SlotOp) :
    ∀ s : FrameSlotState, s.latest_frame = none →
    (∀ op ∈ ops, op.isPublish = false) →
    (runSlotOps s ops).latest_frame = none ∧
    (runSlotOps s ops).latest_timestamp = s.latest_timestamp := by
  induction ops with
  | nil => intro s h1 _; exact ⟨h1, rfl⟩
  | cons op rest ih =>
      intro s h1 h2
      have hrest : ∀ o ∈ rest, o.isPublish = false := fun o ho => h2 o (by simp [ho])
      have hstep : runSlotOps s (op :: rest) = runSlotOps (runSlotOp s op) rest := by
        simp [runSlotOps]
      cases op with
      | readLatest =>
          have hro : runSlotOp s .readLatest = s := by
            simp [runSlotOp, get_frame, h1]
          rw [hstep, hro]
          exact ih s h1 hrest
      | mutate i f =>
          rw [hstep]
          have := ih (runSlotOp s (.mutate i f)) (by simp [runSlotOp, writeRef, h1]) hrest
          exact ⟨this.1, this.2.trans (by simp [runSlotOp, writeRef])⟩
      | publish f now =>
          have := h2 (.publish f now) (by simp)
          simp [SlotOp.isPublish] at this

/-- C3: before any publish `get_frame` returns none and the timestamp is
the zero sentinel, whatever reader-side operations happened; after a
publish, `get_frame` hands out a freshly allocated copy of the slot
contents, and mutating that copy affects neither the stored slot nor what
a subsequent `get_frame` returns. -/
theorem C3_get_frame_copy :
    (∀ (heap : List Frame) (ops : List SlotOp),
       (∀ op ∈ ops, op.isPublish = false) →
       (get_frame (runSlotOps (initSlot heap) ops)).1 = none ∧
       get_timestamp (runSlotOps (initSlot heap) ops) = 0) ∧
    (∀ (s : FrameSlotState) (i : Nat) (f g : Frame),
       s.latest_frame = some i → s.heap.get? i = some f →
       (get_frame s).1 = some s.heap.length ∧
       readRef (get_frame s).2 s.heap.length = some f ∧
       slotContents (writeRef (get_frame s).2 s.heap.length g) = some f ∧
       readRef (get_frame (writeRef (get_frame s).2 s.heap.length g)).2
         ((writeRef (get_frame s).2 s.heap.length g).heap.length) = some f) := by
  constructor
  · intro heap ops hops
    obtain ⟨hn, ht⟩ := runSlotOps_no_publish ops (initSlot heap) rfl hops
    refine ⟨by simp [get_frame, hn], ?_⟩
    simp only [get_timestamp]
    rw [ht]
    rfl
  · intro s i f g h1 h2
    obtain ⟨hi, -⟩ := List.get?_eq_some.mp h2
    have hglen : get_frame s = (some s.heap.length, { s with heap := s.heap ++ [f] }) := by
      unfold get_frame
      rw [h1]
      dsimp only
      rw [h2]
    have hcopy : readRef (get_frame s).2 s.heap.length = some f := by
      rw [hglen]
      simp only [readRef]
      exact List.get?_concat_length s.heap f
    have hslot : slotContents (writeRef (get_frame s).2 s.heap.length g) = some f := by
      rw [hglen]
      simp only [writeRef, slotContents, h1, Option.some_bind]
      rw [List.get?_set_ne g (s.heap ++ [f]) (Nat.ne_of_gt hi)]
      rw [List.get?_append hi]
      exact h2
    refine ⟨by rw [hglen], hcopy, hslot, ?_⟩
    have h1' : (writeRef (get_frame s).2 s.heap.length g).latest_frame = some i := by
      rw [hglen]
      simp only [writeRef]
      exact h1
    have h2' : (writeRef (get_frame s).2 s.heap.length g).heap.get? i = some f := by
      have hx := hslot
      simp only [slotContents, h1', Option.some_bind] at hx
      exact hx
    rw [hglen] at h1' h2' ⊢
    unfold get_frame
    rw [h1']
    dsimp only
    rw [h2']
    dsimp only [readRef]
    exact List.get?_concat_length _ f

/-- Witness for C3: a fresh slot read through one reader operation yields
none, and after publishing a frame, overwriting the returned copy leaves
the stored slot contents intact. -/
theorem C3_get_frame_copy_witness :
    (get_frame (runSlotOps (initSlot []) [SlotOp.readLatest])).1 = none ∧
    get_timestamp (runSlotOps (initSlot []) [SlotOp.readLatest]) = 0 ∧
    slotContents (writeRef (get_frame (publish_frame (initSlot []) exFrame 5)).2
        (publish_frame (initSlot []) exFrame 5).heap.length exMarkerFrame) = some exFrame :=
  ⟨(C3_get_frame_copy.1 [] [SlotOp.readLatest] (by simp [SlotOp.isPublish])).1,
   (C3_get_frame_copy.1 [] [SlotOp.readLatest] (by simp [SlotOp.isPublish])).2,
   (C3_get_frame_copy.2 (publish_frame (initSlot []) exFrame 5) 0 exFrame exMarkerFrame
      rfl rfl).2.2.1⟩

theorem trailingFailures_append_none (reads : List (Option Frame)) :
    trailingFailures (reads ++ [none]) = trailingFailures reads + 1 := by
  simp [trailingFailures, List.reverse_append, List.takeWhile]

theorem trailingFailures_append_some (reads : List (Option Frame)) (f : Frame) :
    trailingFailures (reads ++ [some f]) = 0 := by
  simp [trailingFailures, List.reverse_append, List.takeWhile]

theorem capture_loop_opencv_append (tr : FrameTransform)
    (reads : List (Option Frame)) (r : Option Frame) :
    capture_loop_opencv tr (reads ++ [r]) =
      opencvLoopStep tr (capture_loop_opencv tr reads) r := by
  simp [capture_loop_opencv, List.foldl_append]

/-- The opencv backoff after a run equals the floor doubled once per
trailing consecutive failure, capped at one second. -/
theorem opencv_backoff_eq (tr : FrameTransform) (reads : List (Option Frame)) :
    (capture_loop_opencv tr reads).backoff =
      min ((1/20) * 2 ^ trailingFailures reads) 1 := by
  induction reads using List.reverseRecOn with
  | nil =>
      simp only [capture_loop_opencv, List.foldl_nil, trailingFailures]
      norm_num
  | append_singleton reads r ih =>
      cases r with
      | none =>
          rw [capture_loop_opencv_append, trailingFailures_append_none]
          simp only [opencvLoopStep, ih]
          have h2 : (0:ℚ) < (1/20) * 2 ^ trailingFailures reads := by positivity
          rcases le_total ((1/20) * 2 ^ trailingFailures reads : ℚ) 1 with h | h
          · rw [min_eq_left h, pow_succ]
            ring_nf
          · rw [min_eq_right h, min_eq_right (by norm_num),
              min_eq_right (by nlinarith [pow_succ (2:ℚ) (trailingFailures reads)])]
      | some f =>
          rw [capture_loop_opencv_append, trailingFailures_append_some]
          simp [opencvLoopStep]
          norm_num

theorem opencv_backoff_bounds (tr : FrameTransform) (reads : List (Option Frame)) :
    1/20 ≤ (capture_loop_opencv tr reads).backoff ∧
    (capture_loop_opencv tr reads).backoff ≤ 1 := by
  rw [opencv_backoff_eq]
  refine ⟨le_min ?_ (by norm_num), min_le_right _ _⟩
  have h1 : (1:ℚ) ≤ 2 ^ trailingFailures reads := one_le_pow₀ (by norm_num)
  nlinarith

/-- C8 counterexample: the libuvc loop sleeps a fixed 50 ms on two
consecutive failed reads instead of the exponential 50 ms then 100 ms
schedule the claim requires. -/
theorem C8_libuvc_no_backoff_counterexample :
    (capture_loop_libuvc {} [UvcRead.readError, UvcRead.readError]).sleeps = [1/20, 1/20] ∧
    expectedBackoffSleeps 2 = [1/20, 1/10] ∧
    (capture_loop_libuvc {} [UvcRead.readError, UvcRead.readError]).sleeps ≠
      expectedBackoffSleeps 2 := by
  have h2 : expectedBackoffSleeps 2 = [1/20, 1/10] := by
    norm_num [expectedBackoffSleeps, List.range_succ]
  refine ⟨rfl, h2, ?_⟩
  rw [show (capture_loop_libuvc {} [UvcRead.readError, UvcRead.readError]).sleeps =
      [1/20, 1/20] from rfl, h2]
  intro h
  injection h with h1 hrest
  injection hrest with h3 _
  norm_num at h3

/-- C8 (amended): the generic/OpenCV loop sleeps with exponential backoff
on failure — the sleep after a failed read is the 50 ms floor doubled
once per prior consecutive failure, capped at 1 s; every sleep lies in
[50 ms, 1 s]; a successful read resets the backoff to the floor; and the
loop processes every outcome (one sleep per failure, one publish per
success, never terminating on failure). The USB-Video-Class loop instead
sleeps a fixed 50 ms on every failed read, also never terminating. -/
theorem C8_capture_backoff :
    (∀ tr reads, (capture_loop_opencv tr (reads ++ [none])).sleeps =
       (capture_loop_opencv tr reads).sleeps ++
         [min ((1/20) * 2 ^ trailingFailures reads) 1]) ∧
    (∀ tr reads f, (capture_loop_opencv tr (reads ++ [some f])).backoff = 1/20) ∧
    (∀ tr reads x, x ∈ (capture_loop_opencv tr reads).sleeps → 1/20 ≤ x ∧ x ≤ 1) ∧
    (∀ tr reads, (capture_loop_opencv tr reads).sleeps.length +
       (capture_loop_opencv tr reads).published.length = reads.length) ∧
    (∀ tr reads r, r = UvcRead.readError ∨ r = UvcRead.noFrame →
       (capture_loop_libuvc tr (reads ++ [r])).sleeps =
         (capture_loop_libuvc tr reads).sleeps ++ [1/20]) ∧
    (∀ tr reads, (capture_loop_libuvc tr reads).sleeps.length +
       (capture_loop_libuvc tr reads).published.length = reads.length) := by
  refine ⟨?_, ?_, ?_, ?_, ?_, ?_⟩
  · intro tr reads
    rw [capture_loop_opencv_append]
    simp [opencvLoopStep, opencv_backoff_eq]
  · intro tr reads f
    rw [capture_loop_opencv_append]
    simp [opencvLoopStep]
  · intro tr reads
    induction reads using List.reverseRecOn with
    | nil => intro x hx; simp [capture_loop_opencv] at hx
    | append_singleton reads r ih =>
        intro x hx
        rw [capture_loop_opencv_append] at hx
        cases r with
        | none =>
            simp only [opencvLoopStep, List.mem_append, List.mem_singleton] at hx
            rcases hx with hx | hx
            · exact ih x hx
            · subst hx; exact opencv_backoff_bounds tr reads
        | some f =>
            simp only [opencvLoopStep] at hx
            exact ih x hx
  · intro tr reads
    induction reads using List.reverseRecOn with
    | nil => rfl
    | append_singleton reads r ih =>
        rw [capture_loop_opencv_append]
        cases r <;> simp [opencvLoopStep] <;> omega
  · intro tr reads r h
    have : capture_loop_libuvc tr (reads ++ [r]) =
        uvcLoopStep tr (capture_loop_libuvc tr reads) r := by
      simp [capture_loop_libuvc, List.foldl_append]
    rw [this]
    rcases h with h | h <;> subst h <;> simp [uvcLoopStep]
  · intro tr reads
    induction reads using List.reverseRecOn with
    | nil => rfl
    | append_singleton reads r ih =>
        have : capture_loop_libuvc tr (reads ++ [r]) =
            uvcLoopStep tr (capture_loop_libuvc tr reads) r := by
          simp [capture_loop_libuvc, List.foldl_append]
        rw [this]
        cases r <;> simp [uvcLoopStep] <;> omega

/-- Witness for C8: one prior failure doubles the next opencv sleep to
100 ms, while the libuvc loop's second sleep stays at 50 ms. -/
theorem C8_capture_backoff_witness :
    (capture_loop_opencv {} ([none] ++ [none])).sleeps =
      (capture_loop_opencv {} [none]).sleeps ++
        [min ((1/20 : ℚ) * 2 ^ trailingFailures [none]) 1] ∧
    (capture_loop_libuvc {} ([UvcRead.readError] ++ [UvcRead.readError])).sleeps =
      (capture_loop_libuvc {} [UvcRead.readError]).sleeps ++ [1/20] ∧
    (1/20 ≤ (1/20 : ℚ) ∧ (1/20 : ℚ) ≤ 1) :=
  ⟨C8_capture_backoff.1 {} [none],
   C8_capture_backoff.2.2.2.2.1 {} [UvcRead.readError] UvcRead.readError (Or.inl rfl),
   C8_capture_backoff.2.2.1 {} [none] (1/20) (by simp [capture_loop_opencv, opencvLoopStep])⟩

theorem insertByAddress_ne_nil (d : UvcDevice) (l : List UvcDevice) :
    insertByAddress d l ≠ [] := by
  cases l with
  | nil => simp [insertByAddress]
  | cons x xs =>
      unfold insertByAddress
      split <;> simp

theorem sortByAddress_eq_nil_iff (l : List UvcDevice) :
    sortByAddress l = [] ↔ l = [] := by
  cases l with
  | nil => simp [sortByAddress]
  | cons x xs =>
      simp only [sortByAddress]
      constructor
      · intro h; exact absurd h (insertByAddress_ne_nil x (sortByAddress xs))
      · intro h; exact absurd h (by simp)

/-- C9 counterexample: with two pupil cameras found but no world-camera
candidate, discovery yields two libuvc eye configs plus an OpenCV world
config — a partial mix that is neither entirely UVC-backed nor the
fallback profile. -/
theorem C9_mixed_profile_counterexample :
    (discover_camera_configs exEnvTwoPupils).map (fun c => c.access_method) =
      ["libuvc", "libuvc", "opencv"] ∧
    discover_camera_configs exEnvTwoPupils ≠ fallback_opencv_configs := by
  have hmap : (discover_camera_configs exEnvTwoPupils).map (fun c => c.access_method) =
      ["libuvc", "libuvc", "opencv"] := rfl
  have hf : fallback_opencv_configs.map (fun c => c.access_method) =
      ["opencv", "opencv", "opencv"] := rfl
  refine ⟨hmap, fun h => ?_⟩
  rw [h, hf] at hmap
  simp at hmap

/-- C9 (amended): resolution falls back wholesale to the fixed
generic-index profile when pyuvc is missing, enumeration fails, no device
is found, or fewer than two pupil cameras match; when two pupil cameras
match, the eye configs are UVC-backed and the world config is UVC-backed
exactly when a world candidate exists — otherwise the world camera alone
falls back to the generic index-2 config, a deliberate partial mix. -/
theorem C9_discovery_all_or_nothing :
    (∀ env, env.hasUvc = false → discover_camera_configs env = fallback_opencv_configs) ∧
    (∀ env, env.hasUvc = true → env.uvcDeviceList = none →
       discover_camera_configs env = fallback_opencv_configs) ∧
    (∀ env devices, env.hasUvc = true → env.uvcDeviceList = some devices →
       devices.isEmpty = true →
       discover_camera_configs env = fallback_opencv_configs) ∧
    (∀ env devices, env.hasUvc = true → env.uvcDeviceList = some devices →
       (by_name devices "pupil cam2").length < 2 →
       discover_camera_configs env = fallback_opencv_configs) ∧
    (∀ env devices, env.hasUvc = true → env.uvcDeviceList = some devices →
       devices.isEmpty = false → 2 ≤ (by_name devices "pupil cam2").length →
       ∀ c ∈ discover_camera_configs env,
         c.access_method = "libuvc" ∨ c = worldFallbackConfig) ∧
    (∀ env devices, env.hasUvc = true → env.uvcDeviceList = some devices →
       devices.isEmpty = false → 2 ≤ (by_name devices "pupil cam2").length →
       (if (by_name devices "xgimi").isEmpty = false then by_name devices "xgimi"
        else by_name devices "camera") ≠ [] →
       ∀ c ∈ discover_camera_configs env, c.access_method = "libuvc") := by
  have hbranch : ∀ env devices, env.hasUvc = true → env.uvcDeviceList = some devices →
      devices.isEmpty = false → 2 ≤ (by_name devices "pupil cam2").length →
      discover_camera_configs env =
        (match (sortByAddress (if (by_name devices "xgimi").isEmpty = false
                  then by_name devices "xgimi" else by_name devices "camera")).head? with
         | some dev =>
             ((sortByAddress (by_name devices "pupil cam2")).take 2).enum.map
               (fun p => pupilConfig p.1 p.2) ++ [worldUvcConfig dev]
         | none =>
             ((sortByAddress (by_name devices "pupil cam2")).take 2).enum.map
               (fun p => pupilConfig p.1 p.2) ++ [worldFallbackConfig]) := by
    intro env devices h1 h2 h3 h4
    unfold discover_camera_configs
    rw [h1, h2]
    simp only [Bool.not_true, Bool.false_eq_true, if_false]
    rw [h3]
    simp only [Bool.false_eq_true, if_false, Bool.not_eq_true]
    rw [if_neg (by omega)]
    rcases hx : (by_name devices "xgimi").isEmpty with hxf | hxt
    · simp [hx]
    · simp [hx]
  refine ⟨?_, ?_, ?_, ?_, ?_, ?_⟩
  · intro env h
    unfold discover_camera_configs
    rw [h]
    rfl
  · intro env h1 h2
    unfold discover_camera_configs
    rw [h1, h2]
    rfl
  · intro env devices h1 h2 h3
    unfold discover_camera_configs
    rw [h1, h2]
    simp only [Bool.not_true, Bool.false_eq_true, if_false]
    rw [h3]
    rfl
  · intro env devices h1 h2 h3
    unfold discover_camera_configs
    rw [h1, h2]
    simp only [Bool.not_true, Bool.false_eq_true, if_false]
    rcases he : devices.isEmpty with hef | het
    · simp only [Bool.false_eq_true, if_false]
      rw [if_pos h3]
    · rfl
  · intro env devices h1 h2 h3 h4 c hc
    rw [hbranch env devices h1 h2 h3 h4] at hc
    rcases hhead : (sortByAddress (if (by_name devices "xgimi").isEmpty = false
        then by_name devices "xgimi" else by_name devices "camera")).head? with _ | dev
    all_goals simp only [hhead] at hc
    · rcases List.mem_append.mp hc with hc | hc
      · obtain ⟨p, -, rfl⟩ := List.mem_map.mp hc
        exact Or.inl rfl
      · simp only [List.mem_singleton] at hc
        exact Or.inr hc
    · rcases List.mem_append.mp hc with hc | hc
      · obtain ⟨p, -, rfl⟩ := List.mem_map.mp hc
        exact Or.inl rfl
      · simp only [List.mem_singleton] at hc
        subst hc
        exact Or.inl rfl
  · intro env devices h1 h2 h3 h4 hw c hc
    rw [hbranch env devices h1 h2 h3 h4] at hc
    rcases hhead : (sortByAddress (if (by_name devices "xgimi").isEmpty = false
        then by_name devices "xgimi" else by_name devices "camera")).head? with _ | dev
    · exact absurd ((sortByAddress_eq_nil_iff _).mp (List.head?_eq_none_iff.mp hhead)) hw
    · simp only [hhead] at hc
      rcases List.mem_append.mp hc with hc | hc
      · obtain ⟨p, -, rfl⟩ := List.mem_map.mp hc
        rfl
      · simp only [List.mem_singleton] at hc
        subst hc
        rfl

/-- Witness for C9: a pyuvc-less environment yields exactly the fallback
profile, and in the two-pupils-no-world environment every discovered
config is libuvc-backed or the world fallback config. -/
theorem C9_discovery_all_or_nothing_witness :
    discover_camera_configs exEnvOpencv = fallback_opencv_configs ∧
    (worldFallbackConfig.access_method = "libuvc" ∨
     worldFallbackConfig = worldFallbackConfig) :=
  ⟨C9_discovery_all_or_nothing.1 exEnvOpencv rfl,
   C9_discovery_all_or_nothing.2.2.2.2.1 exEnvTwoPupils [exDevPupil0, exDevPupil1]
     rfl rfl rfl (by decide) worldFallbackConfig (by decide)⟩

/-- Target preparation fails whenever any requested camera has no frame
or its writer fails to open. -/
theorem prepare_targets_go_fails (env : RecordingEnv) (record_dir : String) :
    ∀ (ids : List String) (targets : List (String × String)) (fs : RecFS),
    (∃ cid ∈ ids, env.frames cid = none ∨
       env.writerOpens (record_dir ++ "/" ++ cid ++ ".mp4") = false) →
    (prepare_targets_go env record_dir ids targets fs).1 = false := by
  intro ids
  induction ids with
  | nil =>
      intro targets fs h
      obtain ⟨cid, hmem, -⟩ := h
      simp at hmem
  | cons cid rest ih =>
      intro targets fs h
      obtain ⟨c, hmem, hfail⟩ := h
      unfold prepare_targets_go
      rcases hf : env.frames cid with _ | f
      · rfl
      · dsimp only
        by_cases hw : env.writerOpens (record_dir ++ "/" ++ cid ++ ".mp4") = true
        · rw [if_pos hw]
          apply ih
          rcases List.mem_cons.mp hmem with rfl | hmem'
          · rcases hfail with hfail | hfail
            · rw [hf] at hfail
              exact absurd hfail (by simp)
            · rw [hw] at hfail
              exact absurd hfail (by simp)
          · exact ⟨c, hmem', hfail⟩
        · rw [if_neg hw]

/-- Target preparation never touches the directory set. -/
theorem prepare_targets_go_dirs (env : RecordingEnv) (record_dir : String) :
    ∀ (ids : List String) (targets : List (String × String)) (fs : RecFS),
    (prepare_targets_go env record_dir ids targets fs).2.2.dirs = fs.dirs := by
  intro ids
  induction ids with
  | nil => intro targets fs; rfl
  | cons cid rest ih =>
      intro targets fs
      unfold prepare_targets_go
      rcases hf : env.frames cid with _ | f
      · rfl
      · dsimp only
        by_cases hw : env.writerOpens (record_dir ++ "/" ++ cid ++ ".mp4") = true
        · rw [if_pos hw]
          exact ih _ _
        · rw [if_neg hw]

/-- A failing session start releases every target, keeps the run flag
clear, and returns the filesystem produced by preparation. -/
theorem session_start_fails_of_prepare (env : RecordingEnv)
    (sess : RecordingSessionState) (fs : RecFS) (hrun : sess.running = false)
    (hprep : (prepare_targets_go env sess.record_dir sess.camera_ids sess.targets fs).1
      = false) :
    (RecordingSession.start env sess fs).1 = false ∧
    (RecordingSession.start env sess fs).2.1.targets = [] ∧
    (RecordingSession.start env sess fs).2.1.running = false ∧
    (RecordingSession.start env sess fs).2.2 =
      (prepare_targets_go env sess.record_dir sess.camera_ids sess.targets fs).2.2 := by
  unfold RecordingSession.start prepare_targets
  simp only [hrun, Bool.false_eq_true, if_false, hprep, Bool.not_false, if_true]
  refine ⟨?_, ?_, ?_, ?_⟩ <;> first | trivial | rfl

/-- Whatever the outcome, an inactive manager's start hands back the
filesystem produced by the attempted session start. -/
theorem manager_start_inactive_fs (env : RecordingEnv) (mgr : RecordingManagerState)
    (ids : List String) (ts : String) (fs : RecFS) (hact : mgr.active = false) :
    (RecordingManager.start env mgr ids ts fs).2.2 =
      (RecordingSession.start env
        { record_dir := (create_record_directory mgr.base_dir ts fs).1,
          camera_ids := ids }
        (create_record_directory mgr.base_dir ts fs).2).2.2 := by
  unfold RecordingManager.start
  simp only [hact, Bool.false_eq_true, if_false]
  split <;> rfl

/-- An inactive manager's start returns no directory and leaves the
manager untouched whenever the attempted session start fails. -/
theorem manager_start_inactive_failure (env : RecordingEnv)
    (mgr : RecordingManagerState) (ids : List String) (ts : String) (fs : RecFS)
    (hact : mgr.active = false)
    (hfail : (RecordingSession.start env
        { record_dir := (create_record_directory mgr.base_dir ts fs).1,
          camera_ids := ids }
        (create_record_directory mgr.base_dir ts fs).2).1 = false) :
    (RecordingManager.start env mgr ids ts fs).1 = none ∧
    (RecordingManager.start env mgr ids ts fs).2.1 = mgr := by
  unfold RecordingManager.start
  simp only [hact, Bool.false_eq_true, if_false, hfail, Bool.not_false, if_true]
  refine ⟨?_, ?_⟩ <;> first | trivial | rfl

/-- An inactive manager's start returns the new session's directory when
the session start succeeds. -/
theorem manager_start_inactive_success (env : RecordingEnv)
    (mgr : RecordingManagerState) (ids : List String) (ts : String) (fs : RecFS)
    (hact : mgr.active = false)
    (hok : (RecordingSession.start env
        { record_dir := (create_record_directory mgr.base_dir ts fs).1,
          camera_ids := ids }
        (create_record_directory mgr.base_dir ts fs).2).1 = true) :
    (RecordingManager.start env mgr ids ts fs).1 =
      some ((RecordingSession.start env
        { record_dir := (create_record_directory mgr.base_dir ts fs).1,
          camera_ids := ids }
        (create_record_directory mgr.base_dir ts fs).2).2.1.record_dir) := by
  unfold RecordingManager.start
  simp only [hact, Bool.false_eq_true, if_false, hok, Bool.not_true, if_false]

/-- The created record directory is a member of the directory set. -/
theorem create_record_directory_mem (base ts : String) (fs : RecFS) :
    (base ++ "/" ++ ts) ∈ (create_record_directory base ts fs).2.dirs := by
  unfold create_record_directory
  by_cases h : fs.dirs.contains (base ++ "/" ++ ts) = true
  · simp only [h, if_true]
    exact List.mem_of_elem_eq_true h
  · simp only [h, if_false]
    exact List.mem_append.mpr (Or.inr (List.mem_singleton.mpr rfl))

/-- C4 (amended): a single failed frame read or writer open anywhere in
the requested id list makes the whole start fail: no directory is
returned, the manager stays inactive and unchanged, and the failing
session's targets are all released; when the very first requested camera
has no frame (e.g. the single-camera "dummy" case) no video file is
created at all, though files opened before a later failure remain. -/
theorem C4_recording_start_all_or_nothing :
    (∀ env (mgr : RecordingManagerState) ids ts fs, mgr.active = false →
       (∃ cid ∈ ids, env.frames cid = none ∨
          env.writerOpens (mgr.base_dir ++ "/" ++ ts ++ "/" ++ cid ++ ".mp4") = false) →
       (RecordingManager.start env mgr ids ts fs).1 = none ∧
       (RecordingManager.start env mgr ids ts fs).2.1 = mgr ∧
       (RecordingManager.start env mgr ids ts fs).2.1.active = false) ∧
    (∀ env sess fs, sess.running = false →
       (prepare_targets_go env sess.record_dir sess.camera_ids sess.targets fs).1
         = false →
       (RecordingSession.start env sess fs).1 = false ∧
       (RecordingSession.start env sess fs).2.1.targets = [] ∧
       (RecordingSession.start env sess fs).2.1.running = false) ∧
    (∀ env (mgr : RecordingManagerState) ts fs, mgr.active = false →
       env.frames "dummy" = none →
       (RecordingManager.start env mgr ["dummy"] ts fs).1 = none ∧
       (RecordingManager.start env mgr ["dummy"] ts fs).2.1.active = false ∧
       (RecordingManager.start env mgr ["dummy"] ts fs).2.2.files = fs.files) := by
  have hfail_of_exists : ∀ env (mgr : RecordingManagerState) ids ts fs,
      (∃ cid ∈ ids, env.frames cid = none ∨
        env.writerOpens (mgr.base_dir ++ "/" ++ ts ++ "/" ++ cid ++ ".mp4") = false) →
      (RecordingSession.start env
        { record_dir := (create_record_directory mgr.base_dir ts fs).1,
          camera_ids := ids }
        (create_record_directory mgr.base_dir ts fs).2).1 = false := by
    intro env mgr ids ts fs hex
    exact (session_start_fails_of_prepare env _ _ rfl
      (prepare_targets_go_fails env _ ids [] _ hex)).1
  refine ⟨?_, ?_, ?_⟩
  · intro env mgr ids ts fs hact hex
    obtain ⟨h1, h2⟩ := manager_start_inactive_failure env mgr ids ts fs hact
      (hfail_of_exists env mgr ids ts fs hex)
    exact ⟨h1, h2, by rw [h2]; exact hact⟩
  · intro env sess fs hrun hprep
    obtain ⟨h1, h2, h3, -⟩ := session_start_fails_of_prepare env sess fs hrun hprep
    exact ⟨h1, h2, h3⟩
  · intro env mgr ts fs hact hdummy
    have hex : ∃ cid ∈ ["dummy"], env.frames cid = none ∨
        env.writerOpens (mgr.base_dir ++ "/" ++ ts ++ "/" ++ cid ++ ".mp4") = false :=
      ⟨"dummy", List.mem_singleton.mpr rfl, Or.inl hdummy⟩
    obtain ⟨h1, h2⟩ := manager_start_inactive_failure env mgr ["dummy"] ts fs hact
      (hfail_of_exists env mgr ["dummy"] ts fs hex)
    refine ⟨h1, by rw [h2]; exact hact, ?_⟩
    rw [manager_start_inactive_fs env mgr ["dummy"] ts fs hact]
    have hsess := session_start_fails_of_prepare env
      { record_dir := (create_record_directory mgr.base_dir ts fs).1,
        camera_ids := ["dummy"] }
      (create_record_directory mgr.base_dir ts fs).2 rfl
      (prepare_targets_go_fails env _ ["dummy"] [] _ hex)
    rw [hsess.2.2.2]
    unfold prepare_targets_go
    rw [hdummy]
    rfl

/-- Witness for C4: starting a recording of the never-published "dummy"
camera from a fresh manager returns no directory, stays inactive, and
creates no video file. -/
theorem C4_recording_start_all_or_nothing_witness :
    (RecordingManager.start exRecEnvNoFrames exRecMgr ["dummy"] "TS" {}).1 = none ∧
    (RecordingManager.start exRecEnvNoFrames exRecMgr ["dummy"] "TS" {}).2.1.active
      = false ∧
    (RecordingManager.start exRecEnvNoFrames exRecMgr ["dummy"] "TS" {}).2.2.files =
      ({} : RecFS).files :=
  C4_recording_start_all_or_nothing.2.2 exRecEnvNoFrames exRecMgr "TS" {} rfl rfl

/-- C4 counterexample: with "cam1" publishing and "cam2" never published,
the failed start returns no directory and stays inactive, yet the video
file opened for "cam1" before the failure remains on disk — "creates no
files" is false as stated. -/
theorem C4_leftover_file_counterexample :
    (RecordingManager.start exRecEnvPartial exRecMgr ["cam1", "cam2"] "TS" {}).1
      = none ∧
    (RecordingManager.start exRecEnvPartial exRecMgr ["cam1", "cam2"] "TS" {}).2.1.active
      = false ∧
    (RecordingManager.start exRecEnvPartial exRecMgr ["cam1", "cam2"] "TS" {}).2.2.files
      = ["/rec/TS/cam1.mp4"] ∧
    ["/rec/TS/cam1.mp4"] ≠ ([] : List String) := by
  exact ⟨rfl, rfl, rfl, by simp⟩

/-- C5: a start while a session is already active returns the existing
directory with the manager and filesystem untouched (no second directory,
no second session), and a stop while inactive returns none and changes
nothing. -/
theorem C5_single_active_session :
    (∀ env (mgr : RecordingManagerState) ids ts fs sess,
       mgr.current_session = some sess → sess.running = true →
       RecordingManager.start env mgr ids ts fs = (some sess.record_dir, mgr, fs)) ∧
    (∀ mgr : RecordingManagerState, mgr.active = false →
       RecordingManager.stop mgr = (none, mgr)) := by
  constructor
  · intro env mgr ids ts fs sess hcur hrun
    have hact : mgr.active = true := by
      simp [RecordingManagerState.active, hcur, hrun]
    unfold RecordingManager.start
    rw [hact]
    simp [hcur]
  · intro mgr hact
    unfold RecordingManager.stop
    rcases hcur : mgr.current_session with _ | sess
    · rfl
    · have hrun : sess.running = false := by
        simp [RecordingManagerState.active, hcur] at hact
        exact hact
      dsimp only
      simp [hrun]

/-- Witness for C5: starting on an already-active manager hands back the
existing "/rec/OLD" directory untouched, and stopping a fresh manager
returns none. -/
theorem C5_single_active_session_witness :
    RecordingManager.start exRecEnvNoFrames exActiveRecMgr ["cam1"] "TS" {} =
      (some "/rec/OLD", exActiveRecMgr, {}) ∧
    RecordingManager.stop exRecMgr = (none, exRecMgr) :=
  ⟨C5_single_active_session.1 exRecEnvNoFrames exActiveRecMgr ["cam1"] "TS" {}
     { record_dir := "/rec/OLD", camera_ids := ["cam1"], running := true } rfl rfl,
   C5_single_active_session.2 exRecMgr rfl⟩

/-- C10 (amended): an inactive manager's start creates the
timestamp-named record directory before any frame or encoder check, so
even a failing start (returning no directory, active = false) leaves the
new directory behind; the directory is empty when the failure precedes
every encoder open — in particular when the first requested camera has
no frame — though encoders opened earlier in the attempt may have left
video files in it. -/
theorem C10_directory_created_before_checks :
    ∀ env (mgr : RecordingManagerState) ids ts fs, mgr.active = false →
      ((mgr.base_dir ++ "/" ++ ts) ∈ (RecordingManager.start env mgr ids ts fs).2.2.dirs) ∧
      ((RecordingManager.start env mgr ids ts fs).1 = none →
         (RecordingManager.start env mgr ids ts fs).2.1.active = false) ∧
      (∀ cid rest, ids = cid :: rest → env.frames cid = none →
         (RecordingManager.start env mgr ids ts fs).2.2.files = fs.files) := by
  intro env mgr ids ts fs hact
  refine ⟨?_, ?_, ?_⟩
  · rw [manager_start_inactive_fs env mgr ids ts fs hact]
    have hdirs : (RecordingSession.start env
        { record_dir := (create_record_directory mgr.base_dir ts fs).1,
          camera_ids := ids }
        (create_record_directory mgr.base_dir ts fs).2).2.2.dirs =
        (create_record_directory mgr.base_dir ts fs).2.dirs := by
      unfold RecordingSession.start prepare_targets
      dsimp only
      split
      · rfl
      · split <;> exact prepare_targets_go_dirs env _ ids [] _
    rw [hdirs]
    exact create_record_directory_mem mgr.base_dir ts fs
  · intro hnone
    by_cases hs : (RecordingSession.start env
        { record_dir := (create_record_directory mgr.base_dir ts fs).1,
          camera_ids := ids }
        (create_record_directory mgr.base_dir ts fs).2).1 = false
    · obtain ⟨-, h2⟩ := manager_start_inactive_failure env mgr ids ts fs hact hs
      rw [h2]
      exact hact
    · have hs' : (RecordingSession.start env
          { record_dir := (create_record_directory mgr.base_dir ts fs).1,
            camera_ids := ids }
          (create_record_directory mgr.base_dir ts fs).2).1 = true :=
        Bool.not_eq_false _ ▸ (Bool.of_not_eq_false hs)
      rw [manager_start_inactive_success env mgr ids ts fs hact hs'] at hnone
      exact absurd hnone (by simp)
  · intro cid rest hids hframe
    subst hids
    rw [manager_start_inactive_fs env mgr (cid :: rest) ts fs hact]
    have hsess := session_start_fails_of_prepare env
      { record_dir := (create_record_directory mgr.base_dir ts fs).1,
        camera_ids := cid :: rest }
      (create_record_directory mgr.base_dir ts fs).2 rfl
      (prepare_targets_go_fails env _ (cid :: rest) [] _
        ⟨cid, List.mem_cons_self cid rest, Or.inl hframe⟩)
    rw [hsess.2.2.2]
    unfold prepare_targets_go
    rw [hframe]
    rfl

/-- C10 counterexample: a failing start (no directory returned,
active = false) does not always leave the created directory empty — with
"cam1" publishing and "cam2" never published, the directory "/rec/TS2"
is created before the checks and ends up holding the video file opened
for "cam1" before the failure. -/
theorem C10_nonempty_directory_counterexample :
    (RecordingManager.start exRecEnvPartial exRecMgr ["cam1", "cam2"] "TS2" {}).1
      = none ∧
    (RecordingManager.start exRecEnvPartial exRecMgr ["cam1", "cam2"] "TS2" {}).2.1.active
      = false ∧
    ("/rec" ++ "/" ++ "TS2") ∈
      (RecordingManager.start exRecEnvPartial exRecMgr ["cam1", "cam2"] "TS2" {}).2.2.dirs ∧
    (RecordingManager.start exRecEnvPartial exRecMgr ["cam1", "cam2"] "TS2" {}).2.2.files
      = ["/rec/TS2/cam1.mp4"] ∧
    ["/rec/TS2/cam1.mp4"] ≠ ([] : List String) := by
  refine ⟨rfl, rfl, ?_, rfl, by simp⟩
  rw [show (RecordingManager.start exRecEnvPartial exRecMgr ["cam1", "cam2"] "TS2"
      {}).2.2.dirs = ["/rec/TS2"] from rfl]
  exact List.mem_singleton.mpr rfl

/-- Witness for C10: a failing "dummy" start from a fresh manager still
leaves the newly created directory "/rec/TS" behind, empty. -/
theorem C10_directory_created_before_checks_witness :
    ("/rec" ++ "/" ++ "TS") ∈
      (RecordingManager.start exRecEnvNoFrames exRecMgr ["dummy"] "TS" {}).2.2.dirs ∧
    (RecordingManager.start exRecEnvNoFrames exRecMgr ["dummy"] "TS" {}).2.2.files =
      ({} : RecFS).files :=
  ⟨(C10_directory_created_before_checks exRecEnvNoFrames exRecMgr ["dummy"] "TS" {}
      rfl).1,
   (C10_directory_created_before_checks exRecEnvNoFrames exRecMgr ["dummy"] "TS" {}
      rfl).2.2 "dummy" [] rfl rfl⟩

theorem tickTraceGo_chain (interval : ℚ) :
    ∀ (work : List ℚ) (st : ℚ × ℚ),
    List.Chain' (fun a b : ℚ × ℚ => a.1 + interval ≤ b.1)
      (st :: tickTraceGo interval st work) := by
  intro work
  induction work with
  | nil => intro st; simp [tickTraceGo]
  | cons d rest ih =>
      intro st
      rw [tickTraceGo]
      exact List.Chain'.cons (le_max_left _ _) (ih (tickStep interval st d))

theorem tickTraceGo_inv (interval : ℚ) (hI : 0 < interval) :
    ∀ (work : List ℚ) (st : ℚ × ℚ), (∀ d ∈ work, 0 ≤ d) →
    ∀ x ∈ tickTraceGo interval st work, x.2 ≤ x.1 ∧ x.1 ≤ x.2 + interval := by
  intro work
  induction work with
  | nil => intro st _ x hx; simp [tickTraceGo] at hx
  | cons d rest ih =>
      intro st hw x hx
      have hd : 0 ≤ d := hw d (by simp)
      have hrest : ∀ e ∈ rest, 0 ≤ e := fun e he => hw e (by simp [he])
      rw [tickTraceGo] at hx
      rcases List.mem_cons.mp hx with rfl | hx'
      · constructor
        · exact le_max_right _ _
        · refine max_le ?_ ?_
          · have : st.1 ≤ max st.2 st.1 + d := le_add_of_le_of_nonneg (le_max_right _ _) hd
            simp only [tickStep]
            linarith
          · simp only [tickStep]
            linarith
      · exact ih (tickStep interval st d) hrest x hx'

/-- C6: the tick scheduler obeys next tick = max(previous tick +
interval, now); consecutive tick deadlines grow by at least one interval
(the schedule never moves backward), and after every iteration the
deadline is at least the current time and at most one interval ahead —
drift never exceeds one interval and never compounds. -/
theorem C6_tick_scheduler :
    ∀ (interval start : ℚ) (work : List ℚ), 0 < interval → (∀ d ∈ work, 0 ≤ d) →
      (∀ (st : ℚ × ℚ) (d : ℚ),
         (tickStep interval st d).1 = max (st.1 + interval) (tickStep interval st d).2) ∧
      List.Chain' (fun a b : ℚ × ℚ => a.1 + interval ≤ b.1)
        (tickTrace interval start work) ∧
      (∀ st ∈ tickTrace interval start work, st.2 ≤ st.1 ∧ st.1 ≤ st.2 + interval) := by
  intro interval start work hI hw
  refine ⟨fun st d => rfl, tickTraceGo_chain interval work (start, start), ?_⟩
  intro st hst
  rcases List.mem_cons.mp hst with rfl | hst'
  · exact ⟨le_refl _, by linarith⟩
  · exact tickTraceGo_inv interval hI work (start, start) hw st hst'

/-- Witness for C6: a 30 fps run with one artificially slow iteration. -/
theorem C6_tick_scheduler_witness :
    List.Chain' (fun a b : ℚ × ℚ => a.1 + 1/30 ≤ b.1)
      (tickTrace (1/30) 0 [0, 1/10, 0]) ∧
    (∀ st ∈ tickTrace (1/30) 0 [0, 1/10, 0], st.2 ≤ st.1 ∧ st.1 ≤ st.2 + 1/30) :=
  ⟨(C6_tick_scheduler (1/30) 0 [0, 1/10, 0] (by norm_num)
      (by intro d hd; fin_cases hd <;> norm_num)).2.1,
   (C6_tick_scheduler (1/30) 0 [0, 1/10, 0] (by norm_num)
      (by intro d hd; fin_cases hd <;> norm_num)).2.2⟩

end SmartphoneOS
